import Mathlib

/-!
Verification of the barrier-synchronization service of this repository:
the rendezvous server (`cookbook/test_multiuser/env_server.py`) and the
coordinator state machine (`cookbook/test_multiuser/coordinator_flow.py`).

The server's mutable module-level globals become the fields of `SyncState`.
Python `set`s are modelled as duplicate-free lists (`set(ids)` becomes
`List.eraseDups`, `s.add x` becomes `listInsert`).  The `asyncio.Event`
objects that are recreated each round are modelled as generation numbers:
`captureGen` / `stopGen` identify the current event object, and
`firedCapture` / `firedStop` record the generations whose event has been
`set()`.  Creating a new `asyncio.Event()` is modelled by incrementing the
generation (a fresh, never-fired object).
-/

/-- One entry of the `agent_errors` dict: `{"error_type", "message", "timestamp"}`.
The wall-clock timestamp (`datetime.now()`) is abstracted as a `Nat` supplied
by the caller. -/
structure AgentError where
  error_type : String
  message : String
  timestamp : Nat
deriving Repr, DecidableEq

/-- The synchronization globals of `env_server.py`:
`sync_expected_agents`, `sync_ready_agents`, `sync_capture_signal`,
`sync_stop_signal`, `sync_capture_event`, `sync_stop_event`, `agent_errors`. -/
structure SyncState where
  sync_expected_agents : List String
  sync_ready_agents : List String
  sync_capture_signal : Bool
  sync_stop_signal : Bool
  /-- identity of the current `sync_capture_event` object -/
  captureGen : Nat
  /-- generations of capture events on which `.set()` was called -/
  firedCapture : List Nat
  /-- identity of the current `sync_stop_event` object -/
  stopGen : Nat
  /-- generations of stop events on which `.set()` was called -/
  firedStop : List Nat
  agent_errors : List (String × AgentError)
deriving Repr, DecidableEq

/-- The state of the freshly imported module (all sets empty, flags false,
brand-new event objects, no errors). -/
def initState : SyncState :=
  { sync_expected_agents := []
    sync_ready_agents := []
    sync_capture_signal := false
    sync_stop_signal := false
    captureGen := 0
    firedCapture := []
    stopGen := 0
    firedStop := []
    agent_errors := [] }

/-- Python `set.add`: insert if absent (set semantics on a dup-free list). -/
def listInsert (x : String) (xs : List String) : List String :=
  if x ∈ xs then xs else xs ++ [x]

/-- Python dict assignment `d[k] = v`: overwrite the value at an existing key,
else append. -/
def upsertError (k : String) (v : AgentError) :
    List (String × AgentError) → List (String × AgentError)
  | [] => [(k, v)]
  | (k', v') :: rest =>
      if k' = k then (k, v) :: rest else (k', v') :: upsertError k v rest

/-- The truth value of `sync_expected_agents and sync_ready_agents >= sync_expected_agents`:
non-empty expected set AND every expected agent is in the ready set. -/
def computeAllReady (expected ready : List String) : Bool :=
  !expected.isEmpty && expected.all (fun a => decide (a ∈ ready))

/-- Response of `POST /sync/register_agents`. -/
structure RegisterResponse where
  status : String
  expected_agents : List String
  count : Nat
deriving Repr, DecidableEq

/-- Handler `sync_register_agents`: replace the expected set, clear the ready
set and both flags, and create brand-new capture and stop event objects. -/
def sync_register_agents (agent_ids : List String) (s : SyncState) :
    RegisterResponse × SyncState :=
  let expected := agent_ids.eraseDups
  ({ status := "registered", expected_agents := expected, count := expected.length },
   { s with
       sync_expected_agents := expected
       sync_ready_agents := []
       sync_capture_signal := false
       sync_stop_signal := false
       captureGen := s.captureGen + 1
       stopGen := s.stopGen + 1 })

/-- Response of `POST /sync/ready`: either the stopped dict or the ready dict. -/
inductive ReadyResponse where
  | stopped (agent_id : String) (error : String) (message : String)
  | isReady (agent_id : String) (ready_count expected_count : Nat) (all_ready : Bool)
deriving Repr, DecidableEq

/-- Handler `sync_ready`: if the stop signal is active, return the stopped
response without touching the state; otherwise add the agent to the ready set
and report counts plus `all_ready` (computed on the updated ready set). -/
def sync_ready (agent_id : String) (s : SyncState) : ReadyResponse × SyncState :=
  if s.sync_stop_signal then
    (.stopped agent_id "stop_signal_active" "System is in emergency stop state", s)
  else
    let ready' := listInsert agent_id s.sync_ready_agents
    (.isReady agent_id ready'.length s.sync_expected_agents.length
        (computeAllReady s.sync_expected_agents ready'),
     { s with sync_ready_agents := ready' })

/-- Response body of `GET /sync/status` (`SyncStatusResponse`); `agent_errors`
is `None` when the dict is empty (`dict(agent_errors) if agent_errors else None`). -/
structure StatusResponse where
  expected_agents : List String
  ready_agents : List String
  all_ready : Bool
  capture_signal : Bool
  agent_errors : Option (List (String × AgentError))
deriving Repr, DecidableEq

/-- The failure `GET /sync/status` produces when `sync_expected_agents` is
empty: the handler computes
`all_ready = sync_expected_agents and sync_ready_agents >= sync_expected_agents`,
whose value is then the empty SET, not a bool; constructing
`SyncStatusResponse(all_ready=set(), ...)` fails the pydantic `all_ready: bool`
validation, so the endpoint returns HTTP 500 instead of a response. -/
def pydanticBoolErr : String :=
  "pydantic ValidationError: all_ready=set() is not a valid bool; HTTP 500"

/-- Handler `sync_status`: read-only snapshot, fallible.  When the expected
set is non-empty, the Python `and` yields the genuine bool
`sync_ready_agents >= sync_expected_agents` and the response validates; when
it is empty, `all_ready` is `set()` and pydantic validation raises, so the
endpoint answers HTTP 500 and never reports `all_ready = false` there. -/
def sync_status (s : SyncState) : Except String StatusResponse :=
  if s.sync_expected_agents.isEmpty then
    .error pydanticBoolErr
  else
    .ok { expected_agents := s.sync_expected_agents
          ready_agents := s.sync_ready_agents
          all_ready := computeAllReady s.sync_expected_agents s.sync_ready_agents
          capture_signal := s.sync_capture_signal
          agent_errors := if s.agent_errors.isEmpty then none else some s.agent_errors }

/-- Response of `POST /sync/trigger_capture`. -/
structure TriggerResponse where
  status : String
  triggered_agents : List String
deriving Repr, DecidableEq

/-- Handler `sync_trigger_capture` (state as of the handler's return):
snapshot the ready set as `triggered_agents`, clear the ready set, fire the
current capture event (`sync_capture_event.set()`), hold
`sync_capture_signal = True` for the 100 ms grace period, then set it back to
`False` and replace `sync_capture_event` with a brand-new object.  The flag is
true only transiently inside the call, so the returned state has it false. -/
def sync_trigger_capture (s : SyncState) : TriggerResponse × SyncState :=
  ({ status := "triggered", triggered_agents := s.sync_ready_agents },
   { s with
       sync_capture_signal := false
       sync_ready_agents := []
       firedCapture := s.captureGen :: s.firedCapture
       captureGen := s.captureGen + 1 })

/-- Response of `POST /sync/report_error`. -/
structure ReportErrorResponse where
  status : String
  agent_id : String
  error_type : String
deriving Repr, DecidableEq

/-- Handler `sync_report_error`: upsert into `agent_errors`. -/
def sync_report_error (agent_id error_type message : String) (ts : Nat)
    (s : SyncState) : ReportErrorResponse × SyncState :=
  let entry : AgentError :=
    { error_type := error_type, message := message, timestamp := ts }
  ({ status := "error_reported", agent_id := agent_id, error_type := error_type },
   { s with agent_errors := upsertError agent_id entry s.agent_errors })

/-- Response of `POST /sync/trigger_stop`. -/
structure StopResponse where
  status : String
  message : String
deriving Repr, DecidableEq

/-- Handler `sync_trigger_stop`: set the sticky stop flag and fire the current
stop event (which is NOT replaced, so it stays set). -/
def sync_trigger_stop (s : SyncState) : StopResponse × SyncState :=
  ({ status := "stop_triggered",
     message := "All agents have been signaled to stop. Stop signal remains active." },
   { s with
       sync_stop_signal := true
       firedStop := s.stopGen :: s.firedStop })

/-- Response of `DELETE /sync/reset`. -/
structure ResetResponse where
  status : String
deriving Repr, DecidableEq

/-- Handler `sync_reset`: empty the expected and ready sets, clear both flags,
and create brand-new capture and stop event objects.  The handler's `global`
statement omits `agent_errors`, and the body never touches it, so the error
dict survives a reset. -/
def sync_reset (s : SyncState) : ResetResponse × SyncState :=
  ({ status := "reset" },
   { s with
       sync_expected_agents := []
       sync_ready_agents := []
       sync_capture_signal := false
       sync_stop_signal := false
       captureGen := s.captureGen + 1
       stopGen := s.stopGen + 1 })

/-- Response of `POST /sync/wait_capture`. -/
structure WaitResponse where
  should_capture : Bool
  agent_id : String
  error : Option String
deriving Repr, DecidableEq

/-- First phase of handler `sync_wait_capture`: under the lock, if the stop
signal is already active return immediately; otherwise capture references to
the CURRENT capture and stop event objects and suspend. -/
inductive WaitStart where
  | immediate (resp : WaitResponse)
  | waiting (capTok stopTok : Nat)
deriving Repr, DecidableEq

/-- Start of a `wait_capture` call in state `s` (the state is unchanged). -/
def sync_wait_capture_start (agent_id : String) (s : SyncState) : WaitStart :=
  if s.sync_stop_signal then
    .immediate { should_capture := false, agent_id := agent_id,
                 error := some "stop_signal_received" }
  else
    .waiting s.captureGen s.stopGen

/-- Second phase of `sync_wait_capture`: when the suspended request wakes up
(or its timeout elapses) in state `s'`, it checks `current_stop_event.is_set()`
first, then `current_capture_event.is_set()`, and otherwise reports a timeout.
An event object is set exactly when its generation is in the fired list. -/
def sync_wait_capture_resolve (agent_id : String) (capTok stopTok : Nat)
    (s' : SyncState) : WaitResponse :=
  if stopTok ∈ s'.firedStop then
    { should_capture := false, agent_id := agent_id, error := some "stop_signal_received" }
  else if capTok ∈ s'.firedCapture then
    { should_capture := true, agent_id := agent_id, error := none }
  else
    { should_capture := false, agent_id := agent_id, error := some "timeout" }

/-!
Operation traces over the server.  Each constructor is one completed handler
invocation; `applyOp` is its effect on the module state.  (`GET /sync/status`
and the start of a `wait_capture` call leave the state unchanged, so only the
mutating handlers appear.)
-/

/-- One completed server call. -/
inductive Op where
  | registerAgents (agent_ids : List String)
  | ready (agent_id : String)
  | triggerCapture
  | reportError (agent_id error_type message : String) (ts : Nat)
  | triggerStop
  | reset
deriving Repr, DecidableEq

/-- Effect of one completed server call on the module state. -/
def applyOp (op : Op) (s : SyncState) : SyncState :=
  match op with
  | .registerAgents ids => (sync_register_agents ids s).2
  | .ready a => (sync_ready a s).2
  | .triggerCapture => (sync_trigger_capture s).2
  | .reportError a et m ts => (sync_report_error a et m ts s).2
  | .triggerStop => (sync_trigger_stop s).2
  | .reset => (sync_reset s).2

/-- State after a sequence of completed server calls. -/
def applyOps (ops : List Op) (s : SyncState) : SyncState :=
  ops.foldl (fun s op => applyOp op s) s

/-- Event-object sanity invariant: every fired capture generation is strictly
below the current one (the current `sync_capture_event` has never been set),
and every fired stop generation is at most the current one (`trigger_stop`
sets the current stop event without replacing it). -/
def tokenInv (s : SyncState) : Prop :=
  (∀ g ∈ s.firedCapture, g < s.captureGen) ∧ (∀ g ∈ s.firedStop, g ≤ s.stopGen)

instance (s : SyncState) : Decidable (tokenInv s) := by
  unfold tokenInv; infer_instance

lemma tokenInv_initState : tokenInv initState := by
  constructor <;> simp [initState]

lemma tokenInv_applyOp (op : Op) (s : SyncState) (h : tokenInv s) :
    tokenInv (applyOp op s) := by
  obtain ⟨hc, hs⟩ := h
  cases op with
  | registerAgents ids =>
      refine ⟨fun g hg => ?_, fun g hg => ?_⟩
      · exact Nat.lt_succ_of_lt (hc g hg)
      · exact Nat.le_succ_of_le (hs g hg)
  | ready a =>
      simp only [applyOp, sync_ready]
      split
      · exact ⟨hc, hs⟩
      · exact ⟨hc, hs⟩
  | triggerCapture =>
      refine ⟨fun g hg => ?_, hs⟩
      simp only [applyOp, sync_trigger_capture, List.mem_cons] at hg
      rcases hg with rfl | hg
      · exact Nat.lt_succ_self _
      · exact Nat.lt_succ_of_lt (hc g hg)
  | reportError a et m ts => exact ⟨hc, hs⟩
  | triggerStop =>
      refine ⟨hc, fun g hg => ?_⟩
      simp only [applyOp, sync_trigger_stop, List.mem_cons] at hg
      rcases hg with rfl | hg
      · exact Nat.le_refl _
      · exact hs g hg
  | reset =>
      refine ⟨fun g hg => ?_, fun g hg => ?_⟩
      · exact Nat.lt_succ_of_lt (hc g hg)
      · exact Nat.le_succ_of_le (hs g hg)

/-- No handler other than `sync_trigger_capture` ever sets a capture event. -/
lemma applyOp_firedCapture (op : Op) (s : SyncState) (h : op ≠ .triggerCapture) :
    (applyOp op s).firedCapture = s.firedCapture := by
  cases op with
  | registerAgents ids => rfl
  | ready a => simp only [applyOp, sync_ready]; split <;> rfl
  | triggerCapture => exact absurd rfl h
  | reportError a et m ts => rfl
  | triggerStop => rfl
  | reset => rfl

/-- A capture token that is unfired stays unfired across any sequence of
completed calls containing no `trigger_capture`. -/
lemma applyOps_firedCapture (ops : List Op) (s : SyncState)
    (h : Op.triggerCapture ∉ ops) :
    (applyOps ops s).firedCapture = s.firedCapture := by
  induction ops generalizing s with
  | nil => rfl
  | cons op rest ih =>
      have hop : op ≠ .triggerCapture := fun he => h (he ▸ List.mem_cons_self op rest)
      have hrest : Op.triggerCapture ∉ rest := fun hm => h (List.mem_cons_of_mem op hm)
      have h1 : applyOps (op :: rest) s = applyOps rest (applyOp op s) := rfl
      rw [h1, ih (applyOp op s) hrest, applyOp_firedCapture op s hop]

/-- Whether an operation is a `ready` report, the only handler that ever adds
to the ready set. -/
def Op.isReadyReport : Op → Bool
  | .ready _ => true
  | _ => false

/-- Only `sync_ready` ever adds to the ready set: every other handler leaves
it unchanged or empties it. -/
lemma applyOp_ready_empty (op : Op) (s : SyncState)
    (h : op.isReadyReport = false) (he : s.sync_ready_agents = []) :
    (applyOp op s).sync_ready_agents = [] := by
  cases op with
  | registerAgents ids => rfl
  | ready a => simp [Op.isReadyReport] at h
  | triggerCapture => rfl
  | reportError a et m ts => exact he
  | triggerStop => exact he
  | reset => rfl

/-- An empty ready set stays empty across any sequence of completed calls
containing no `ready`. -/
lemma applyOps_ready_empty (ops : List Op) (s : SyncState)
    (h : ∀ op ∈ ops, op.isReadyReport = false) (he : s.sync_ready_agents = []) :
    (applyOps ops s).sync_ready_agents = [] := by
  induction ops generalizing s with
  | nil => exact he
  | cons op rest ih =>
      exact ih (applyOp op s) (fun o ho => h o (List.mem_cons_of_mem op ho))
        (applyOp_ready_empty op s (h op (List.mem_cons_self op rest)) he)

/-- Whether an operation is a (re-)registration or a reset, the only handlers
that clear the sticky stop flag. -/
def Op.clearsStop : Op → Bool
  | .registerAgents _ => true
  | .reset => true
  | _ => false

/-- The stop flag, once set, survives every completed call that is not a
registration or a reset. -/
lemma applyOp_stop_signal (op : Op) (s : SyncState)
    (h : op.clearsStop = false) (hs : s.sync_stop_signal = true) :
    (applyOp op s).sync_stop_signal = true := by
  cases op with
  | registerAgents ids => simp [Op.clearsStop] at h
  | ready a => simp only [applyOp, sync_ready, hs]; exact hs
  | triggerCapture => exact hs
  | reportError a et m ts => exact hs
  | triggerStop => rfl
  | reset => simp [Op.clearsStop] at h

/-- Stickiness of the stop flag across whole call sequences. -/
lemma applyOps_stop_signal (ops : List Op) (s : SyncState)
    (h : ∀ op ∈ ops, op.clearsStop = false) (hs : s.sync_stop_signal = true) :
    (applyOps ops s).sync_stop_signal = true := by
  induction ops generalizing s with
  | nil => exact hs
  | cons op rest ih =>
      exact ih (applyOp op s) (fun o ho => h o (List.mem_cons_of_mem op ho))
        (applyOp_stop_signal op s (h op (List.mem_cons_self op rest)) hs)

/-- Whether an operation is a registration with a non-empty agent list, the
only handler that can make `sync_expected_agents` non-empty. -/
def Op.registersNonempty : Op → Bool
  | .registerAgents ids => !ids.isEmpty
  | _ => false

/-- An empty expected set stays empty across every completed call that is not
a registration with a non-empty list. -/
lemma applyOp_expected_empty (op : Op) (s : SyncState)
    (h : op.registersNonempty = false) (he : s.sync_expected_agents = []) :
    (applyOp op s).sync_expected_agents = [] := by
  cases op with
  | registerAgents ids =>
      simp only [Op.registersNonempty, Bool.not_eq_false'] at h
      have : ids = [] := List.isEmpty_iff.mp h
      subst this
      rfl
  | ready a => simp only [applyOp, sync_ready]; split <;> exact he
  | triggerCapture => exact he
  | reportError a et m ts => exact he
  | triggerStop => exact he
  | reset => rfl

/-- Emptiness of the expected set across whole call sequences. -/
lemma applyOps_expected_empty (ops : List Op) (s : SyncState)
    (h : ∀ op ∈ ops, op.registersNonempty = false)
    (he : s.sync_expected_agents = []) :
    (applyOps ops s).sync_expected_agents = [] := by
  induction ops generalizing s with
  | nil => exact he
  | cons op rest ih =>
      exact ih (applyOp op s) (fun o ho => h o (List.mem_cons_of_mem op ho))
        (applyOp_expected_empty op s (h op (List.mem_cons_self op rest)) he)

/-!
Coordinator state machine (`coordinator_flow.py`).  The `shared` dict of the
flow is modelled by `CoordShared`; each node's `post` phase is a function of
the shared state and of the node's `exec` result, returning the updated shared
state together with the action string; the flow wiring of
`create_coordinator_flow` maps an action string to the next node.
The polling loop inside `CollectStatusNode.exec` interacts with real time, so
its outcome is abstracted as a `PollOutcome`: either some poll of
`GET /sync/status` saw a truthy `agent_errors`, or some poll saw `all_ready`,
or `wait_timeout` elapsed first.  `pollClassify` is the body of one loop
iteration, mapping a status response to the outcome it produces (or `none` to
keep polling).
-/

/-- The fields of the coordinator's `shared` dict that the flow reads/writes. -/
structure CoordShared where
  round : Nat
  consecutive_timeouts : Nat
  max_consecutive_timeouts : Nat
  max_rounds : Nat
  should_continue : Bool
deriving Repr, DecidableEq

/-- Result dict of `CollectStatusNode.exec`. -/
structure CollectExecRes where
  all_ready : Bool
  ready_agents : List String
  timeout : Bool
  round : Nat
  agent_error_detected : Bool
deriving Repr, DecidableEq

/-- Abstract outcome of the polling loop in `CollectStatusNode.exec`. -/
inductive PollOutcome where
  | errorDetected (ready_agents : List String)
  | allReady (ready_agents : List String)
  | timedOut (last_ready : List String)
deriving Repr, DecidableEq

/-- Python truthiness of `status.get("agent_errors", \x7b\x7d)`. -/
def errsTruthy : Option (List (String × AgentError)) → Bool
  | none => false
  | some l => !l.isEmpty

/-- One iteration of the polling loop body applied to a status response:
a truthy `agent_errors` returns the error outcome (checked BEFORE `all_ready`),
else `all_ready` returns the success outcome, else the loop keeps polling. -/
def pollClassify (st : StatusResponse) : Option PollOutcome :=
  if errsTruthy st.agent_errors then some (.errorDetected st.ready_agents)
  else if st.all_ready then some (.allReady st.ready_agents)
  else none

/-- The result dict `CollectStatusNode.exec` builds for each outcome
(`round` is the value read from `shared` in `prep`). -/
def collectStatus_exec (outcome : PollOutcome) (round : Nat) : CollectExecRes :=
  match outcome with
  | .errorDetected ra =>
      { all_ready := false, ready_agents := ra, timeout := false,
        round := round, agent_error_detected := true }
  | .allReady ra =>
      { all_ready := true, ready_agents := ra, timeout := false,
        round := round, agent_error_detected := false }
  | .timedOut ra =>
      { all_ready := false, ready_agents := ra, timeout := true,
        round := round, agent_error_detected := false }

/-- `CollectStatusNode.post`: agent errors beat everything and go straight to
emergency stop; a timeout bumps `consecutive_timeouts` and escalates when the
bumped counter reaches the ceiling; success resets the counter to 0. -/
def collectStatus_post (shared : CoordShared) (exec_res : CollectExecRes) :
    CoordShared × String :=
  let shared := { shared with round := exec_res.round }
  if exec_res.agent_error_detected then
    (shared, "emergency_stop")
  else if exec_res.timeout then
    let ct := shared.consecutive_timeouts + 1
    let shared := { shared with consecutive_timeouts := ct }
    if ct ≥ shared.max_consecutive_timeouts then (shared, "emergency_stop")
    else (shared, "timeout")
  else
    let shared := { shared with consecutive_timeouts := 0 }
    if !exec_res.all_ready then (shared, "timeout")
    else (shared, "default")

/-- A whole `CollectStatusNode` step (`prep` reads `shared.round`, `exec`
resolves to the given poll outcome, then `post`). -/
def collectStatus_step (shared : CoordShared) (outcome : PollOutcome) :
    CoordShared × String :=
  collectStatus_post shared (collectStatus_exec outcome shared.round)

/-- A whole `DecisionNode` step: `should_continue := round < max_rounds`,
action always `"default"`. -/
def decision_step (shared : CoordShared) : CoordShared × String :=
  ({ shared with should_continue := decide (shared.round < shared.max_rounds) },
   "default")

/-- `DispatchNode.post` given whether the `trigger_capture` HTTP call
succeeded: `round` becomes `exec_res["round"] + 1` (and `exec` echoed back the
`prep` round, i.e. `shared.round`) no matter what; `"end"` exactly when
`should_continue` is false; a failed trigger only logs and continues. -/
def dispatch_step (shared : CoordShared) (success : Bool) : CoordShared × String :=
  let shared := { shared with round := shared.round + 1 }
  if !shared.should_continue then (shared, "end")
  else
    -- `if not exec_res.get("success")` only prints a warning
    match success with
    | _ => (shared, "continue")

/-- `EmergencyStopNode.post`: returns `"end"` whether or not the
`trigger_stop` HTTP call succeeded. -/
def emergencyStop_step (shared : CoordShared) (success : Bool) :
    CoordShared × String :=
  match success with
  | _ => (shared, "end")

/-- The nodes of the coordinator flow, plus the terminal pseudo-node reached
by an action with no successor. -/
inductive CoordNode where
  | collectStatus
  | decision
  | dispatch
  | emergencyStop
  | finished
deriving Repr, DecidableEq

/-- The wiring built by `create_coordinator_flow`:
`collect >> decide >> dispatch`, `collect - "timeout" >> collect`,
`collect - "emergency_stop" >> emergency_stop`,
`dispatch - "continue" >> collect`, and the `"end"` actions terminate. -/
def routeAction : CoordNode → String → CoordNode
  | .collectStatus, "default" => .decision
  | .collectStatus, "timeout" => .collectStatus
  | .collectStatus, "emergency_stop" => .emergencyStop
  | .decision, "default" => .dispatch
  | .dispatch, "continue" => .collectStatus
  | _, _ => .finished

/-- The environment input one flow step consumes: the poll outcome for
`CollectStatus`, and the HTTP success flag for `Dispatch` / `EmergencyStop`. -/
inductive CoordInput where
  | poll (outcome : PollOutcome)
  | httpResult (success : Bool)
deriving Repr, DecidableEq

/-- One step of the coordinator flow: run the current node with its input and
follow the wiring.  A node given the wrong kind of input (never happens in a
run) or the terminal node leaves the configuration unchanged. -/
def coordStep : CoordNode × CoordShared → CoordInput → CoordNode × CoordShared
  | (.collectStatus, shared), .poll outcome =>
      let (shared', act) := collectStatus_step shared outcome
      (routeAction .collectStatus act, shared')
  | (.decision, shared), _ =>
      let (shared', act) := decision_step shared
      (routeAction .decision act, shared')
  | (.dispatch, shared), .httpResult ok =>
      let (shared', act) := dispatch_step shared ok
      (routeAction .dispatch act, shared')
  | (.emergencyStop, shared), .httpResult ok =>
      let (shared', act) := emergencyStop_step shared ok
      (routeAction .emergencyStop act, shared')
  | cfg, _ => cfg

/-- Run the coordinator flow over a list of inputs. -/
def coordRun (cfg : CoordNode × CoordShared) (ins : List CoordInput) :
    CoordNode × CoordShared :=
  ins.foldl coordStep cfg

/-- Coordinator shared state at flow start (`round` and the timeout counter
default to 0 via `shared.get(..., 0)`; `should_continue` defaults to `True`
in `DispatchNode.post`). -/
def initShared (max_ct max_rounds : Nat) : CoordShared :=
  { round := 0, consecutive_timeouts := 0, max_consecutive_timeouts := max_ct,
    max_rounds := max_rounds, should_continue := true }

/-- Whether an operation touches the capture event object (fires it or
replaces it with a fresh one). -/
def Op.changesCaptureEvent : Op → Bool
  | .triggerCapture => true
  | .registerAgents _ => true
  | .reset => true
  | _ => false

/-- Handlers that do not touch the capture event leave both its identity and
its fired status unchanged. -/
lemma applyOp_captureEvent (op : Op) (s : SyncState)
    (h : op.changesCaptureEvent = false) :
    (applyOp op s).firedCapture = s.firedCapture ∧
      (applyOp op s).captureGen = s.captureGen := by
  cases op with
  | registerAgents ids => simp [Op.changesCaptureEvent] at h
  | ready a => simp only [applyOp, sync_ready]; split <;> exact ⟨rfl, rfl⟩
  | triggerCapture => simp [Op.changesCaptureEvent] at h
  | reportError a et m ts => exact ⟨rfl, rfl⟩
  | triggerStop => exact ⟨rfl, rfl⟩
  | reset => simp [Op.changesCaptureEvent] at h

/-- Capture-event identity and fired status across whole call sequences. -/
lemma applyOps_captureEvent (ops : List Op) (s : SyncState)
    (h : ∀ op ∈ ops, op.changesCaptureEvent = false) :
    (applyOps ops s).firedCapture = s.firedCapture ∧
      (applyOps ops s).captureGen = s.captureGen := by
  induction ops generalizing s with
  | nil => exact ⟨rfl, rfl⟩
  | cons op rest ih =>
      have h1 := applyOp_captureEvent op s (h op (List.mem_cons_self op rest))
      have h2 := ih (applyOp op s) (fun o ho => h o (List.mem_cons_of_mem op ho))
      exact ⟨h2.1.trans h1.1, h2.2.trans h1.2⟩

/-- Truth-value bridge for the Python expression
`sync_expected_agents and sync_ready_agents >= sync_expected_agents`. -/
lemma computeAllReady_iff (expected ready : List String) :
    computeAllReady expected ready = true ↔
      expected ≠ [] ∧ ∀ a ∈ expected, a ∈ ready := by
  simp [computeAllReady, List.isEmpty_iff, List.all_eq_true]

/-- Complete case analysis of `GET /sync/status`: with an empty expected set
the handler dies in pydantic validation (HTTP 500); otherwise it returns the
snapshot response. -/
lemma sync_status_cases (t : SyncState) :
    (t.sync_expected_agents = [] ∧ sync_status t = .error pydanticBoolErr) ∨
    (t.sync_expected_agents ≠ [] ∧
      sync_status t = .ok
        { expected_agents := t.sync_expected_agents
          ready_agents := t.sync_ready_agents
          all_ready := computeAllReady t.sync_expected_agents t.sync_ready_agents
          capture_signal := t.sync_capture_signal
          agent_errors :=
            if t.agent_errors.isEmpty then none else some t.agent_errors }) := by
  by_cases he : t.sync_expected_agents.isEmpty
  · exact Or.inl ⟨List.isEmpty_iff.mp he, by simp [sync_status, he]⟩
  · refine Or.inr ⟨fun hnil => he (by simp [hnil]), by simp [sync_status, he]⟩

/-- Fields of any response `GET /sync/status` actually returns. -/
lemma sync_status_ok (t : SyncState) (st : StatusResponse)
    (h : sync_status t = .ok st) :
    st.ready_agents = t.sync_ready_agents ∧
    st.all_ready = computeAllReady t.sync_expected_agents t.sync_ready_agents ∧
    st.agent_errors =
      (if t.agent_errors.isEmpty then none else some t.agent_errors) ∧
    t.sync_expected_agents ≠ [] := by
  rcases sync_status_cases t with ⟨-, herr⟩ | ⟨hne, hok⟩
  · rw [herr] at h
    exact absurd h (by simp)
  · rw [hok] at h
    obtain rfl : _ = st := by injection h
    exact ⟨rfl, rfl, rfl, hne⟩

/-!
Claim theorems.
-/

/-- Example session used by witnesses: agents `["A"]` registered, and agent
`"A"` has reported ready. -/
def stateA : SyncState :=
  (sync_ready "A" (sync_register_agents ["A"] initState).2).2

/-- C2 (code bug): after `register_agents([])` the expected set is empty, so
every subsequent `GET /sync/status` — until a non-empty registration — dies in
the pydantic `all_ready: bool` validation (`all_ready` is `set()` there) and
answers HTTP 500 instead of reporting `all_ready = false` as the claim and the
handler's declared response model intend.  The claimed biconditional does hold
wherever the program actually returns an `all_ready` value: for every status
response that validates, and for every `ready` response (a plain dict, whose
`set()` value serializes as the falsy `[]` — in the model, `false`). -/
theorem C2_status_500_on_empty_registration (a : String) (ops : List Op)
    (hops : ∀ op ∈ ops, op.registersNonempty = false) :
    sync_status (sync_register_agents [] initState).2 = .error pydanticBoolErr ∧
    sync_status (applyOps ops (sync_register_agents [] initState).2) =
      .error pydanticBoolErr ∧
    (∀ rc ec ar,
      (sync_ready a (applyOps ops (sync_register_agents [] initState).2)).1 =
        .isReady a rc ec ar → ar = false) ∧
    (∀ t : SyncState, (∃ st, sync_status t = .ok st) ↔
      t.sync_expected_agents ≠ []) ∧
    (∀ t : SyncState, ∀ st, sync_status t = .ok st →
      (st.all_ready = true ↔
        t.sync_expected_agents ≠ [] ∧
          ∀ x ∈ t.sync_expected_agents, x ∈ t.sync_ready_agents)) ∧
    (∀ t : SyncState, ∀ rc ec ar, (sync_ready a t).1 = .isReady a rc ec ar →
      (ar = true ↔
        t.sync_expected_agents ≠ [] ∧
          ∀ x ∈ t.sync_expected_agents, x ∈ (sync_ready a t).2.sync_ready_agents)) := by
  have hempty : (applyOps ops (sync_register_agents [] initState).2).sync_expected_agents = [] :=
    applyOps_expected_empty ops (sync_register_agents [] initState).2 hops rfl
  have herr : ∀ t : SyncState, t.sync_expected_agents = [] →
      sync_status t = .error pydanticBoolErr := by
    intro t ht
    rcases sync_status_cases t with ⟨-, h⟩ | ⟨hne, -⟩
    · exact h
    · exact absurd ht hne
  have hready : ∀ t : SyncState, ∀ rc ec ar,
      (sync_ready a t).1 = .isReady a rc ec ar →
      (ar = true ↔
        t.sync_expected_agents ≠ [] ∧
          ∀ x ∈ t.sync_expected_agents, x ∈ (sync_ready a t).2.sync_ready_agents) := by
    intro t rc ec ar h
    by_cases hstop : t.sync_stop_signal
    · simp [sync_ready, hstop] at h
    · simp only [sync_ready, hstop, if_neg, Bool.false_eq_true, if_false,
        ReadyResponse.isReady.injEq] at h
      obtain ⟨-, -, -, har⟩ := h
      subst har
      simpa [sync_ready, hstop] using
        computeAllReady_iff t.sync_expected_agents
          (listInsert a t.sync_ready_agents)
  refine ⟨herr _ rfl, herr _ hempty, ?_, ?_, ?_, hready⟩
  · intro rc ec ar h
    have := hready _ rc ec ar h
    rcases har : ar with _ | _
    · rfl
    · obtain ⟨hne, -⟩ := this.mp har
      exact absurd hempty hne
  · intro t
    constructor
    · rintro ⟨st, hok⟩
      exact (sync_status_ok t st hok).2.2.2
    · intro hne
      rcases sync_status_cases t with ⟨hnil, -⟩ | ⟨-, hok⟩
      · exact absurd hnil hne
      · exact ⟨_, hok⟩
  · intro t st hok
    rw [(sync_status_ok t st hok).2.1]
    exact computeAllReady_iff t.sync_expected_agents t.sync_ready_agents

/-- Witness for C2 at a concrete input: after `register_agents([])` then a
ready report and a trigger, the status endpoint still answers the pydantic
HTTP 500 error; and in the session where `["A"]` is registered and `"A"` is
ready, the status response that validates has `all_ready = true`. -/
theorem C2_witness :
    sync_status
        (applyOps [Op.ready "B", Op.triggerCapture]
          (sync_register_agents [] initState).2) = .error pydanticBoolErr ∧
    (∀ st, sync_status stateA = .ok st →
      (st.all_ready = true ↔
        stateA.sync_expected_agents ≠ [] ∧
          ∀ x ∈ stateA.sync_expected_agents, x ∈ stateA.sync_ready_agents)) :=
  ⟨(C2_status_500_on_empty_registration "B" [Op.ready "B", Op.triggerCapture]
      (by decide)).2.1,
   fun st => (C2_status_500_on_empty_registration "B"
      [Op.ready "B", Op.triggerCapture] (by decide)).2.2.2.2.1 stateA st⟩

/-- C3 (code bug): `POST /sync/trigger_capture` always returns status
`"triggered"` with `triggered_agents` equal to the ready set immediately
before the call and leaves the ready set empty; every `GET /sync/status`
response returned after the trigger (and after any further completed calls in
which no agent reports ready) shows `ready_agents = []`, and when the expected
set is non-empty the status call does return such a response — but on a
session with an empty expected set (e.g. trigger right after a reset) the
status call dies in the pydantic `all_ready: bool` validation and answers
HTTP 500 instead of reporting `ready_agents == []` as the claim intends. -/
theorem C3_trigger_snapshot_and_clear (s : SyncState) (ops : List Op)
    (hops : ∀ op ∈ ops, op.isReadyReport = false) :
    (sync_trigger_capture s).1.status = "triggered" ∧
    (sync_trigger_capture s).1.triggered_agents = s.sync_ready_agents ∧
    (sync_trigger_capture s).2.sync_ready_agents = [] ∧
    (∀ st, sync_status (sync_trigger_capture s).2 = .ok st →
      st.ready_agents = []) ∧
    (∀ st, sync_status (applyOps ops (sync_trigger_capture s).2) = .ok st →
      st.ready_agents = []) ∧
    (s.sync_expected_agents ≠ [] →
      ∃ st, sync_status (sync_trigger_capture s).2 = .ok st ∧
        st.ready_agents = []) ∧
    sync_status (sync_trigger_capture (sync_reset s).2).2 =
      .error pydanticBoolErr := by
  have hclear : (sync_trigger_capture s).2.sync_ready_agents = [] := rfl
  have hlater : (applyOps ops (sync_trigger_capture s).2).sync_ready_agents = [] :=
    applyOps_ready_empty ops (sync_trigger_capture s).2 hops rfl
  refine ⟨rfl, rfl, rfl, ?_, ?_, ?_, ?_⟩
  · intro st hok
    rw [(sync_status_ok _ st hok).1, hclear]
  · intro st hok
    rw [(sync_status_ok _ st hok).1, hlater]
  · intro hne
    rcases sync_status_cases (sync_trigger_capture s).2 with ⟨hnil, -⟩ | ⟨-, hok⟩
    · exact absurd hnil hne
    · exact ⟨_, hok, by rw [(sync_status_ok _ _ hok).1, hclear]⟩
  · rcases sync_status_cases (sync_trigger_capture (sync_reset s).2).2 with
      ⟨-, herr⟩ | ⟨hne, -⟩
    · exact herr
    · exact absurd rfl hne

/-- Witness for C3 at a concrete input: triggering in the session where `"A"`
is ready returns `triggered_agents = ["A"]`, and `status` (which succeeds
there: `["A"]` is registered) still shows no ready agents after a subsequent
error report and stop. -/
theorem C3_witness :
    (sync_trigger_capture stateA).1.triggered_agents = ["A"] ∧
    (∀ st, sync_status
        (applyOps [Op.reportError "A" "api_quota_exceeded" "quota" 3, Op.triggerStop]
          (sync_trigger_capture stateA).2) = .ok st → st.ready_agents = []) ∧
    sync_status (sync_trigger_capture (sync_reset stateA).2).2 =
      .error pydanticBoolErr := by
  have h := C3_trigger_snapshot_and_clear stateA
    [Op.reportError "A" "api_quota_exceeded" "quota" 3, Op.triggerStop] (by decide)
  exact ⟨by rw [h.2.1]; rfl, h.2.2.2.2.1, h.2.2.2.2.2.2⟩

/-- C10: `trigger_capture` has no precondition guard: for EVERY state —
including states with the stop signal set, `all_ready` false, or an empty
ready set — it returns `"triggered"` with the (possibly empty) ready snapshot
and clears the ready set; and it changes only the capture signal (false on
return), the ready set, and the capture event (fired, then replaced by a
fresh one), leaving the expected set, the stop signal, the stop event, and the
error dict untouched. -/
theorem C10_trigger_no_guard_frame (s : SyncState) :
    (sync_trigger_capture s).1.status = "triggered" ∧
    (sync_trigger_capture s).1.triggered_agents = s.sync_ready_agents ∧
    (sync_trigger_capture s).2.sync_ready_agents = [] ∧
    (sync_trigger_capture s).2.sync_capture_signal = false ∧
    (sync_trigger_capture s).2.firedCapture = s.captureGen :: s.firedCapture ∧
    (sync_trigger_capture s).2.captureGen = s.captureGen + 1 ∧
    (sync_trigger_capture s).2.sync_expected_agents = s.sync_expected_agents ∧
    (sync_trigger_capture s).2.sync_stop_signal = s.sync_stop_signal ∧
    (sync_trigger_capture s).2.stopGen = s.stopGen ∧
    (sync_trigger_capture s).2.firedStop = s.firedStop ∧
    (sync_trigger_capture s).2.agent_errors = s.agent_errors :=
  ⟨rfl, rfl, rfl, rfl, rfl, rfl, rfl, rfl, rfl, rfl, rfl⟩

/-- C4: once the stop signal is set, `ready` answers `"stopped"` with error
`"stop_signal_active"` without touching the ready set, `wait_capture` answers
immediately (no blocking) with `should_capture = false` and error
`"stop_signal_received"`, and both behaviours persist across every completed
call that is not a `register_agents` or `reset` — the only two handlers that
clear the flag. -/
theorem C4_stop_signal_sticky (s : SyncState) (a : String) (ops : List Op)
    (hs : s.sync_stop_signal = true)
    (hops : ∀ op ∈ ops, op.clearsStop = false) :
    (sync_ready a s).1 =
      .stopped a "stop_signal_active" "System is in emergency stop state" ∧
    (sync_ready a s).2 = s ∧
    sync_wait_capture_start a s =
      .immediate { should_capture := false, agent_id := a,
                   error := some "stop_signal_received" } ∧
    (applyOps ops s).sync_stop_signal = true ∧
    (∀ b, (sync_ready b (applyOps ops s)).1 =
      .stopped b "stop_signal_active" "System is in emergency stop state") ∧
    (∀ b, (sync_ready b (applyOps ops s)).2 = applyOps ops s) ∧
    (∀ b, sync_wait_capture_start b (applyOps ops s) =
      .immediate { should_capture := false, agent_id := b,
                   error := some "stop_signal_received" }) ∧
    (∀ ids, (applyOp (.registerAgents ids) s).sync_stop_signal = false) ∧
    ((applyOp .reset s).sync_stop_signal = false) := by
  have hlater : (applyOps ops s).sync_stop_signal = true :=
    applyOps_stop_signal ops s hops hs
  refine ⟨?_, ?_, ?_, hlater, ?_, ?_, ?_, ?_, ?_⟩
  · simp [sync_ready, hs]
  · simp [sync_ready, hs]
  · simp [sync_wait_capture_start, hs]
  · intro b; simp [sync_ready, hlater]
  · intro b; simp [sync_ready, hlater]
  · intro b; simp [sync_wait_capture_start, hlater]
  · intro ids; rfl
  · rfl

/-- Witness for C4 at a concrete input: after a `trigger_stop` in the session
with `"A"` ready, a later `ready` call (after a capture trigger and an error
report happened in between) is still rejected with `"stop_signal_active"`. -/
theorem C4_witness :
    ((sync_trigger_stop stateA).2.sync_stop_signal = true) ∧
    (sync_ready "B"
        (applyOps [Op.triggerCapture, Op.reportError "A" "e" "m" 0]
          (sync_trigger_stop stateA).2)).1 =
      .stopped "B" "stop_signal_active" "System is in emergency stop state" := by
  have h := C4_stop_signal_sticky (sync_trigger_stop stateA).2 "A"
    [Op.triggerCapture, Op.reportError "A" "e" "m" 0] rfl (by decide)
  exact ⟨rfl, h.2.2.2.2.1 "B"⟩

/-- Observable content of a session state: everything a client can notice,
with the event objects abstracted to their set/unset status (a brand-new
`asyncio.Event` is observationally identical to any other unset one). -/
structure SyncObs where
  expected : List String
  ready : List String
  captureSignal : Bool
  stopSignal : Bool
  curCaptureFired : Bool
  curStopFired : Bool
  errors : List (String × AgentError)
deriving Repr, DecidableEq

/-- Projection of a session state to its observable content. -/
def SyncState.obs (s : SyncState) : SyncObs :=
  { expected := s.sync_expected_agents
    ready := s.sync_ready_agents
    captureSignal := s.sync_capture_signal
    stopSignal := s.sync_stop_signal
    curCaptureFired := decide (s.captureGen ∈ s.firedCapture)
    curStopFired := decide (s.stopGen ∈ s.firedStop)
    errors := s.agent_errors }

/-- C9: `register_agents` replaces the expected set with the (deduplicated)
given list, clears the ready set and both signals, and installs fresh —
never-fired — capture and stop events; it never fails (total, and always
answers `"registered"`); and registering the same list twice in a row yields
a session observationally identical to registering it once. -/
theorem C9_register_replace_idempotent (ids : List String) (s : SyncState)
    (hinv : tokenInv s) :
    (sync_register_agents ids s).1.status = "registered" ∧
    (sync_register_agents ids s).2.sync_expected_agents = ids.eraseDups ∧
    (sync_register_agents ids s).2.sync_ready_agents = [] ∧
    (sync_register_agents ids s).2.sync_capture_signal = false ∧
    (sync_register_agents ids s).2.sync_stop_signal = false ∧
    (sync_register_agents ids s).2.captureGen ∉
      (sync_register_agents ids s).2.firedCapture ∧
    (sync_register_agents ids s).2.stopGen ∉
      (sync_register_agents ids s).2.firedStop ∧
    (sync_register_agents ids (sync_register_agents ids s).2).2.obs =
      (sync_register_agents ids s).2.obs := by
  obtain ⟨hc, hst⟩ := hinv
  have hcap1 : s.captureGen + 1 ∉ s.firedCapture := by
    intro hmem
    exact absurd (hc _ hmem) (by omega)
  have hcap2 : s.captureGen + 1 + 1 ∉ s.firedCapture := by
    intro hmem
    exact absurd (hc _ hmem) (by omega)
  have hstp1 : s.stopGen + 1 ∉ s.firedStop := by
    intro hmem
    exact absurd (hst _ hmem) (by omega)
  have hstp2 : s.stopGen + 1 + 1 ∉ s.firedStop := by
    intro hmem
    exact absurd (hst _ hmem) (by omega)
  refine ⟨rfl, rfl, rfl, rfl, rfl, hcap1, hstp1, ?_⟩
  simp [sync_register_agents, SyncState.obs, hcap1, hcap2, hstp1, hstp2]

/-- Witness for C9 at a concrete input: registering `["A", "B", "A"]` twice in
the initial session is observationally the same as registering it once, and
stores the deduplicated expected set `["A", "B"]`. -/
theorem C9_witness :
    (sync_register_agents ["A", "B", "A"]
        (sync_register_agents ["A", "B", "A"] initState).2).2.obs =
      (sync_register_agents ["A", "B", "A"] initState).2.obs ∧
    (sync_register_agents ["A", "B", "A"] initState).2.sync_expected_agents =
      ["A", "B"] := by
  have h := C9_register_replace_idempotent ["A", "B", "A"] initState (by decide)
  exact ⟨h.2.2.2.2.2.2.2, by rw [h.2.1]; rfl⟩

/-- C1: a `wait_capture` call that begins strictly after a `trigger_capture`
call returned captures the round event current at the start of its wait; that
event is the fresh one the trigger installed before returning — not the one
the trigger fired — and it has never been fired, stays unfired across any
further completed calls containing no `trigger_capture` (so in that span the
waiter can only resolve as a stop or a timeout), and is fired exactly by the
next `trigger_capture` (after which the waiter resolves with
`should_capture = true` unless its stop event fired first). -/
theorem C1_wait_after_trigger_is_next_round (s0 : SyncState) (a : String)
    (ops ops' : List Op)
    (hinv : tokenInv s0)
    (hops : Op.triggerCapture ∉ ops)
    (hops' : ∀ op ∈ ops', op.changesCaptureEvent = false) :
    ((sync_trigger_capture s0).2.sync_stop_signal = false →
      sync_wait_capture_start a (sync_trigger_capture s0).2 =
        .waiting (sync_trigger_capture s0).2.captureGen
          (sync_trigger_capture s0).2.stopGen) ∧
    (sync_trigger_capture s0).2.captureGen ≠ s0.captureGen ∧
    (sync_trigger_capture s0).2.captureGen ∉
      (sync_trigger_capture s0).2.firedCapture ∧
    (sync_trigger_capture s0).2.captureGen ∉
      (applyOps ops (sync_trigger_capture s0).2).firedCapture ∧
    (∀ stopTok : Nat, ∀ s' : SyncState,
        (sync_trigger_capture s0).2.captureGen ∉ s'.firedCapture →
        (sync_wait_capture_resolve a (sync_trigger_capture s0).2.captureGen
            stopTok s').should_capture = false) ∧
    (sync_trigger_capture s0).2.captureGen ∈
      (sync_trigger_capture
          (applyOps ops' (sync_trigger_capture s0).2)).2.firedCapture ∧
    (∀ stopTok : Nat, ∀ s' : SyncState, stopTok ∉ s'.firedStop →
        (sync_trigger_capture s0).2.captureGen ∈ s'.firedCapture →
        sync_wait_capture_resolve a (sync_trigger_capture s0).2.captureGen
            stopTok s' =
          { should_capture := true, agent_id := a, error := none }) := by
  obtain ⟨hc, -⟩ := hinv
  have hfresh : (sync_trigger_capture s0).2.captureGen ∉
      (sync_trigger_capture s0).2.firedCapture := by
    simp only [sync_trigger_capture, List.mem_cons]
    rintro (h1 | h1)
    · omega
    · exact absurd (hc _ h1) (by omega)
  refine ⟨?_, ?_, hfresh, ?_, ?_, ?_, ?_⟩
  · intro hstop
    simp [sync_wait_capture_start, hstop]
  · simp only [sync_trigger_capture]
    omega
  · rw [applyOps_firedCapture ops (sync_trigger_capture s0).2 hops]
    exact hfresh
  · intro stopTok s' hmem
    simp only [sync_wait_capture_resolve, hmem, if_false]
    split <;> rfl
  · have hev := applyOps_captureEvent ops' (sync_trigger_capture s0).2 hops'
    show (sync_trigger_capture s0).2.captureGen ∈
        (applyOps ops' (sync_trigger_capture s0).2).captureGen ::
          (applyOps ops' (sync_trigger_capture s0).2).firedCapture
    rw [hev.2]
    exact List.mem_cons_self _ _
  · intro stopTok s' hstop hmem
    simp [sync_wait_capture_resolve, hstop, hmem]

/-- Witness for C1 at a concrete input: after triggering in the session with
`"A"` ready, the freshly captured round event is still unfired after a
subsequent reset, and is fired by the next trigger (here after `"B"` reports
ready in between). -/
theorem C1_witness :
    (sync_trigger_capture stateA).2.captureGen ∉
      (applyOps [Op.reset] (sync_trigger_capture stateA).2).firedCapture ∧
    (sync_trigger_capture stateA).2.captureGen ∈
      (sync_trigger_capture
          (applyOps [Op.ready "B"] (sync_trigger_capture stateA).2)).2.firedCapture := by
  have h := C1_wait_after_trigger_is_next_round stateA "W" [Op.reset]
    [Op.ready "B"] (by decide) (by decide) (by decide)
  exact ⟨h.2.2.2.1, h.2.2.2.2.2.1⟩

/-- Session in which agent `"agent_1"` has reported an error. -/
def errState : SyncState :=
  (sync_report_error "agent_1" "unity_window_missing" "window lost" 7 initState).2

/-- C5: `DELETE /sync/reset` empties the expected and ready sets, clears both
signals and installs fresh event objects — but its `global` statement omits
`agent_errors` and the handler never touches it, so the error report of
`"agent_1"` SURVIVES the reset, contradicting the handler's own docstring
("Clear all synchronization-related state"). -/
theorem C5_reset_keeps_agent_errors :
    (sync_reset errState).2.sync_expected_agents = [] ∧
    (sync_reset errState).2.sync_ready_agents = [] ∧
    (sync_reset errState).2.sync_capture_signal = false ∧
    (sync_reset errState).2.sync_stop_signal = false ∧
    (sync_reset errState).2.captureGen ∉ (sync_reset errState).2.firedCapture ∧
    (sync_reset errState).2.stopGen ∉ (sync_reset errState).2.firedStop ∧
    (sync_reset errState).2.agent_errors =
      [("agent_1", { error_type := "unity_window_missing",
                     message := "window lost", timestamp := 7 })] := by
  refine ⟨rfl, rfl, rfl, rfl, ?_, ?_, rfl⟩ <;> decide

/-- C6: a `CollectStatus` step that observes `all_ready` resets the timeout
counter to 0 and proceeds to `Decision`; one that times out bumps the counter
by 1, escalating to `EmergencyStop` exactly when the bumped counter reaches
the ceiling and otherwise self-looping; and with a ceiling of 3 and no agent
ever ready, three consecutive timeouts reach `EmergencyStop` and then the
terminal node, with `round` still 0 throughout. -/
theorem C6_timeout_counter_escalation (shared : CoordShared)
    (ra ra' : List String)
    (hlt : shared.consecutive_timeouts < shared.max_consecutive_timeouts) :
    (collectStatus_step shared (.allReady ra)).1.consecutive_timeouts = 0 ∧
    (collectStatus_step shared (.allReady ra)).2 = "default" ∧
    routeAction .collectStatus "default" = .decision ∧
    (collectStatus_step shared (.timedOut ra')).1.consecutive_timeouts =
      shared.consecutive_timeouts + 1 ∧
    ((collectStatus_step shared (.timedOut ra')).2 = "emergency_stop" ↔
      shared.consecutive_timeouts + 1 = shared.max_consecutive_timeouts) ∧
    ((collectStatus_step shared (.timedOut ra')).2 = "timeout" ↔
      shared.consecutive_timeouts + 1 < shared.max_consecutive_timeouts) ∧
    routeAction .collectStatus "timeout" = .collectStatus ∧
    routeAction .collectStatus "emergency_stop" = .emergencyStop ∧
    coordRun (.collectStatus, initShared 3 100)
        [.poll (.timedOut []), .poll (.timedOut [])] =
      (.collectStatus, { initShared 3 100 with consecutive_timeouts := 2 }) ∧
    coordRun (.collectStatus, initShared 3 100)
        [.poll (.timedOut []), .poll (.timedOut []), .poll (.timedOut [])] =
      (.emergencyStop, { initShared 3 100 with consecutive_timeouts := 3 }) ∧
    coordRun (.collectStatus, initShared 3 100)
        [.poll (.timedOut []), .poll (.timedOut []), .poll (.timedOut []),
         .httpResult true] =
      (.finished, { initShared 3 100 with consecutive_timeouts := 3 }) ∧
    (coordRun (.collectStatus, initShared 3 100)
        [.poll (.timedOut []), .poll (.timedOut []), .poll (.timedOut []),
         .httpResult true]).2.round = 0 := by
  have hts : shared.consecutive_timeouts + 1 ≥ shared.max_consecutive_timeouts ↔
      shared.consecutive_timeouts + 1 = shared.max_consecutive_timeouts := by
    omega
  refine ⟨?_, ?_, rfl, ?_, ?_, ?_, rfl, rfl, by decide, by decide, by decide,
    by decide⟩
  · simp [collectStatus_step, collectStatus_exec, collectStatus_post]
  · simp [collectStatus_step, collectStatus_exec, collectStatus_post]
  · simp [collectStatus_step, collectStatus_exec, collectStatus_post]
    split <;> rfl
  · simp only [collectStatus_step, collectStatus_exec, collectStatus_post,
      Bool.false_eq_true, if_false, if_true]
    rw [← hts]
    by_cases hge : shared.consecutive_timeouts + 1 ≥ shared.max_consecutive_timeouts
    · simp [hge]
    · simp [hge]
  · simp only [collectStatus_step, collectStatus_exec, collectStatus_post,
      Bool.false_eq_true, if_false, if_true]
    have : shared.consecutive_timeouts + 1 < shared.max_consecutive_timeouts ↔
        ¬ (shared.consecutive_timeouts + 1 ≥ shared.max_consecutive_timeouts) := by
      omega
    rw [this]
    by_cases hge : shared.consecutive_timeouts + 1 ≥ shared.max_consecutive_timeouts
    · simp [hge]
    · simp [hge]

/-- Witness for C6 at a concrete input: from the fresh coordinator state with
ceiling 3, a first timeout bumps the counter to 1, and three timeouts followed
by the emergency-stop broadcast reach the terminal node at round 0. -/
theorem C6_witness :
    (collectStatus_step (initShared 3 100) (.timedOut [])).1.consecutive_timeouts = 1 ∧
    coordRun (.collectStatus, initShared 3 100)
        [.poll (.timedOut []), .poll (.timedOut []), .poll (.timedOut []),
         .httpResult true] =
      (.finished, { initShared 3 100 with consecutive_timeouts := 3 }) := by
  have h := C6_timeout_counter_escalation (initShared 3 100) ["A"] [] (by decide)
  exact ⟨h.2.2.2.1, h.2.2.2.2.2.2.2.2.2.2.1⟩

/-- C7: whenever a status poll sees a truthy `agent_errors` dict, the loop
body returns the error outcome at once — it is checked BEFORE `all_ready`,
so the value of `all_ready` is irrelevant — and `CollectStatusNode.post` then
answers `"emergency_stop"` (routed to the `EmergencyStop` node) without
consulting or incrementing the timeout counter; on the server side, every
status response that is actually returned from a session with a non-empty
error dict is classified as the error outcome.  (A status call that fails —
the empty-expected-set HTTP 500 — raises `requests.RequestException`, which
the poll loop catches and retries; no outcome is produced by such a poll, so
it is outside this claim's premise of a response containing errors.) -/
theorem C7_agent_error_bypasses_counter (shared : CoordShared)
    (st : StatusResponse) (h : errsTruthy st.agent_errors = true) :
    pollClassify st = some (.errorDetected st.ready_agents) ∧
    (collectStatus_step shared (.errorDetected st.ready_agents)).2 =
      "emergency_stop" ∧
    (collectStatus_step shared (.errorDetected st.ready_agents)).1.consecutive_timeouts =
      shared.consecutive_timeouts ∧
    routeAction .collectStatus "emergency_stop" = .emergencyStop ∧
    (∀ s : SyncState, ∀ st' : StatusResponse, sync_status s = .ok st' →
      s.agent_errors ≠ [] →
      pollClassify st' = some (.errorDetected s.sync_ready_agents)) := by
  refine ⟨?_, rfl, rfl, rfl, ?_⟩
  · simp [pollClassify, h]
  · intro s st' hok hne
    have hemp : ¬ s.agent_errors.isEmpty := by
      simpa [List.isEmpty_iff] using hne
    obtain ⟨hready, -, herrs, -⟩ := sync_status_ok s st' hok
    rw [if_neg hemp] at herrs
    simp [pollClassify, errsTruthy, herrs, hemp, hready]

/-- Witness for C7 at a concrete input: a status response that reports BOTH
`all_ready = true` and a non-empty error dict is classified as an error and
sends the coordinator to emergency stop with the counter untouched. -/
theorem C7_witness :
    pollClassify
        { expected_agents := ["A"], ready_agents := ["A"], all_ready := true,
          capture_signal := false,
          agent_errors := some [("A",
            { error_type := "unity_window_missing", message := "m",
              timestamp := 1 })] } =
      some (.errorDetected ["A"]) ∧
    (collectStatus_step (initShared 3 100) (.errorDetected ["A"])).2 =
      "emergency_stop" := by
  have h := C7_agent_error_bypasses_counter (initShared 3 100)
    { expected_agents := ["A"], ready_agents := ["A"], all_ready := true,
      capture_signal := false,
      agent_errors := some [("A",
        { error_type := "unity_window_missing", message := "m",
          timestamp := 1 })] } (by decide)
  exact ⟨h.1, h.2.1⟩

/-- C8: `DispatchNode.post` increments `round` by exactly 1 whether or not the
`trigger_capture` HTTP call succeeded, answers `"end"` exactly when
`should_continue` is false and `"continue"` otherwise, and the wiring sends
`"continue"` back to `CollectStatus` and terminates on `"end"` — so a failed
trigger call never by itself ends the loop. -/
theorem C8_dispatch_round_and_exit (shared : CoordShared) (success : Bool) :
    (dispatch_step shared success).1.round = shared.round + 1 ∧
    ((dispatch_step shared success).2 = "end" ↔
      shared.should_continue = false) ∧
    ((dispatch_step shared success).2 = "continue" ↔
      shared.should_continue = true) ∧
    (dispatch_step shared false).2 = (dispatch_step shared true).2 ∧
    routeAction .dispatch "continue" = .collectStatus ∧
    routeAction .dispatch "end" = .finished := by
  cases hsc : shared.should_continue <;>
    cases success <;>
      simp [dispatch_step, hsc, routeAction]
